import Mathlib

/-!
# Shallow embedding of `src/docker/validate.py`

The script is a sequence of six probe functions
(`check_pytorch`, `check_transformer_engine`, `check_modelopt`,
`check_megatron_lm`, `check_additional_tools`, `run_fp8_test`)
followed by a `main` routine that records their boolean results in a
dict, prints a summary and exits with status 1 when a required check
failed.

Embedding choices:

* Python exceptions are modelled by `Exc`, distinguishing `ImportError`
  from every other `Exception` (the script's handlers only ever
  distinguish these two classes; `except Exception` catches both, a bare
  `except:` also catches both).
* Each probe body runs in `PyM`, a writer/exception monad: it
  accumulates the list of printed status messages (the script's
  `ok`/`fail`/`warn`/`info`/`header` helpers) and either returns a value
  or carries an uncaught exception.  Messages printed before an
  exception is raised are kept, as with real stdout.
* The outside world (which imports succeed, whether CUDA is available,
  GPU properties, whether the illustrative tensor operations succeed) is
  an `Env` record.  Each syntactic region of the script that is guarded
  by its own `try`/`except` gets its own failure point in `Env`;
  consecutive infallible reads inside one region are collapsed into one
  field.  The two `import torch` statements, and the
  `transformer_engine` imports repeated by `run_fp8_test`, reuse the
  same `Env` field as their first occurrence (Python caches modules, and
  the outcome of an import statement is a function of the environment).
* Every print site of the script gets its own `MsgText` constructor
  carrying the interpolated data, with the severity of the helper used
  (`ok` → success, `fail` → failure, `warn` → warning, `info` → note,
  `header` → heading).
* Sub-blocks of a probe that sit under their own `try` are given named
  definitions (`..._subtest`) so the probe definitions mirror the
  script's block structure line by line.
-/

set_option maxHeartbeats 1000000

namespace Validate

/-- Python exceptions, as far as the script's handlers distinguish them:
an `ImportError` (with its message text) or any other `Exception`. -/
inductive Exc where
  | importError (s : String)
  | otherError (s : String)
deriving DecidableEq, Repr

/-- The exception's message text, as interpolated by the script's
`f"... : {e}"` format strings. -/
def Exc.msg : Exc → String
  | .importError s => s
  | .otherError s => s

/-- Whether the exception is an `ImportError` (matched by the script's
`except ImportError` handlers). -/
def Exc.isImportError : Exc → Bool
  | .importError _ => true
  | .otherError _ => false

/-- Severity of a printed line: the script's `ok` / `fail` / `warn` /
`info` / `header` helpers (validate.py lines 20-33). -/
inductive Severity where
  | success | failure | warning | note | heading
deriving DecidableEq, Repr

/-- One constructor per print site inside the six probe functions of
validate.py, carrying the data interpolated at that site. -/
inductive MsgText where
  -- check_pytorch (lines 38-64)
  | pytorch_version (v : String)
  | cuda_version (v : String)
  | gpu_count (n : Nat)
  | gpu_props (i : Nat) (name mem : String)
  | cuda_ops_ok
  | cuda_not_available
  | pytorch_error (s : String)
  -- check_transformer_engine (lines 66-113)
  | te_version (v : String)
  | te_pytorch_ok
  | te_recipe_ok
  | te_formats (fs : List String)
  | te_recipe_warn (s : String)
  | te_fp8sm_ok
  | te_fp8sm_warn
  | te_layers_ok
  | te_layers_warn (s : String)
  | te_forward_ok (shape : String)
  | te_forward_warn (s : String)
  | te_error (s : String)
  -- check_modelopt (lines 115-153)
  | modelopt_version (v : String)
  | mtq_ok
  | mtq_configs (n : Nat)
  | mtq_warn (s : String)
  | mte_ok
  | mte_absent
  | modelopt_not_installed (s : String)
  | modelopt_degraded (s : String)
  -- check_megatron_lm (lines 155-205)
  | megatron_ok
  | parallel_state_ok
  | parallel_state_warn (s : String)
  | tensor_parallel_ok
  | tensor_parallel_warn (s : String)
  | transformer_config_ok
  | transformer_config_warn (s : String)
  | gpt_model_ok
  | gpt_model_absent (s : String)
  | megatron_location (p : String)
  | megatron_error (s : String)
  -- check_additional_tools (lines 208-229)
  | tool_ok (name : String)
  | tool_absent (name : String)
  -- run_fp8_test (lines 231-270)
  | fp8_skip_no_gpu
  | fp8_capability (major minor : Nat)
  | fp8_emulation_note
  | fp8_recipe_ok
  | fp8_forward_ok (shape : String)
  | fp8_warn (s : String)
  -- section headers (one per probe)
  | heading_line (s : String)
deriving DecidableEq, Repr

/-- A printed line: severity tag plus the message content. -/
structure Msg where
  sev : Severity
  text : MsgText
deriving DecidableEq, Repr

/-- The effect of a Python code fragment: the messages it prints, and
either a returned value or an uncaught exception.  Messages printed
before the exception was raised are retained. -/
structure PyM (α : Type) where
  msgs : List Msg
  res : Except Exc α
deriving Repr

/-- Sequencing of two fragments: the second one runs only when the
first completed normally; its output is appended. -/
def PyM.bind (x : PyM α) (f : α → PyM β) : PyM β :=
  match x.res with
  | .error e => ⟨x.msgs, .error e⟩
  | .ok a => ⟨x.msgs ++ (f a).msgs, (f a).res⟩

instance : Monad PyM where
  pure a := ⟨[], .ok a⟩
  bind := PyM.bind

/-- A library operation whose outcome is dictated by the environment:
it prints nothing and either returns or raises. -/
def liftE (r : Except Exc α) : PyM α := ⟨[], r⟩

/-- `ok(msg)` (validate.py line 20). -/
def okM (t : MsgText) : PyM Unit := ⟨[⟨.success, t⟩], .ok ()⟩

/-- `fail(msg)` (validate.py line 23). -/
def failM (t : MsgText) : PyM Unit := ⟨[⟨.failure, t⟩], .ok ()⟩

/-- `warn(msg)` (validate.py line 26). -/
def warnM (t : MsgText) : PyM Unit := ⟨[⟨.warning, t⟩], .ok ()⟩

/-- `info(msg)` (validate.py line 29). -/
def noteM (t : MsgText) : PyM Unit := ⟨[⟨.note, t⟩], .ok ()⟩

/-- `header(msg)` (validate.py line 32). -/
def headerM (s : String) : PyM Unit := ⟨[⟨.heading, .heading_line s⟩], .ok ()⟩

/-- A run of `info` lines (the GPU enumeration loop). -/
def emitAll (ms : List Msg) : PyM Unit := ⟨ms, .ok ()⟩

/-- `try: x except Exception as e: h e` — catches every exception. -/
def tryAll (x : PyM α) (h : Exc → PyM α) : PyM α :=
  match x.res with
  | .error e => ⟨x.msgs ++ (h e).msgs, (h e).res⟩
  | .ok a => ⟨x.msgs, .ok a⟩

/-- `try: x except ImportError as e: h e` — catches only `ImportError`;
any other exception keeps propagating. -/
def tryImp (x : PyM α) (h : String → PyM α) : PyM α :=
  match x.res with
  | .error (.importError s) => ⟨x.msgs ++ (h s).msgs, (h s).res⟩
  | .error (.otherError s) => ⟨x.msgs, .error (.otherError s)⟩
  | .ok a => ⟨x.msgs, .ok a⟩

/-- `try: x except ImportError as e: hi e except Exception as e: ho e` —
the first matching handler wins, so `ImportError` goes to `hi` and every
other exception to `ho` (the `check_modelopt` handler pair,
validate.py lines 148-153). -/
def tryCatch2 (x : PyM α) (hi ho : String → PyM α) : PyM α :=
  match x.res with
  | .error (.importError s) => ⟨x.msgs ++ (hi s).msgs, (hi s).res⟩
  | .error (.otherError s) => ⟨x.msgs ++ (ho s).msgs, (ho s).res⟩
  | .ok a => ⟨x.msgs, .ok a⟩

/-- The outside world as the script observes it: the outcome of every
fallible library operation and the values of the data it reads. -/
structure Env where
  -- `import torch` (lines 42, 101, 235) and `torch.cuda.is_available()`
  torchImport : Except Exc Unit
  torchVersion : String
  cudaAvailable : Bool
  cudaVersion : String
  gpuCount : Nat
  gpuName : Nat → String
  gpuMem : Nat → String
  -- the illustrative randn/matmul pair (lines 55-56)
  cudaTensorOps : Except Exc Unit
  -- `import transformer_engine` (line 70)
  teImport : Except Exc Unit
  teVersion : String
  -- `import transformer_engine.pytorch` (lines 74, 236)
  tePytorchImport : Except Exc Unit
  -- `from transformer_engine.common.recipe import ...` (lines 79, 237)
  teRecipeImport : Except Exc Unit
  teFormats : List String
  -- `from transformer_engine.pytorch.fp8 import FP8GlobalStateManager` (line 87)
  teFp8smImport : Except Exc Unit
  -- `from transformer_engine.pytorch import Linear, ...` (line 94)
  teLayersImport : Except Exc Unit
  -- TE layer construction + forward pass (lines 103-105); yields y.shape
  teForwardOps : Except Exc String
  -- `import modelopt` (line 126)
  modeloptImport : Except Exc Unit
  modeloptVersion : String
  -- `import modelopt.torch.quantization` + config listing (lines 131-136)
  mtqImport : Except Exc Unit
  mtqConfigCount : Nat
  -- `import modelopt.torch.export` (line 142)
  mteImport : Except Exc Unit
  -- `import megatron` (line 160)
  megatronImport : Except Exc Unit
  -- `from megatron.core import parallel_state` (line 165)
  parallelStateImport : Except Exc Unit
  -- `from megatron.core.tensor_parallel import layers` (line 173)
  tensorParallelImport : Except Exc Unit
  -- `from megatron.core.transformer import TransformerConfig` (line 180)
  transformerConfigImport : Except Exc Unit
  -- `from megatron.core.models.gpt import GPTModel` (line 187)
  gptModelImport : Except Exc Unit
  -- install-location resolution (lines 194-198): `some p` when a path
  -- is found and printed, `none` when neither attribute applies
  megatronPath : Except Exc (Option String)
  -- `__import__(m)` for the five auxiliary tools (line 223)
  jupyterImport : Except Exc Unit
  tensorboardImport : Except Exc Unit
  wandbImport : Except Exc Unit
  datasetsImport : Except Exc Unit
  transformersImport : Except Exc Unit
  -- `torch.cuda.get_device_capability()` (line 244)
  capabilityMajor : Nat
  capabilityMinor : Nat
  -- `DelayedScaling(...)` construction (lines 250-254)
  fp8RecipeOps : Except Exc Unit
  -- fp8 layer construction + autocast forward (lines 258-263); yields y.shape
  fp8ForwardOps : Except Exc String

/-- `check_pytorch` (validate.py lines 38-64): import the runtime,
report the version; with CUDA available enumerate devices and run one
tensor operation and return `True`, otherwise `fail` and return
`False`; any exception is caught and yields `False`. -/
def check_pytorch (env : Env) : PyM Bool := do
  headerM "1. PyTorch"
  tryAll
    (do
      liftE env.torchImport
      okM (.pytorch_version env.torchVersion)
      if env.cudaAvailable then do
        okM (.cuda_version env.cudaVersion)
        okM (.gpu_count env.gpuCount)
        emitAll ((List.range env.gpuCount).map fun i =>
          ⟨.note, .gpu_props i (env.gpuName i) (env.gpuMem i)⟩)
        liftE env.cudaTensorOps
        okM .cuda_ops_ok
        pure true
      else do
        failM .cuda_not_available
        pure false)
    (fun e => do
      failM (.pytorch_error e.msg)
      pure false)

/-- The FP8-recipe sub-probe of `check_transformer_engine`
(validate.py lines 77-83): import the recipe types and list the format
names; only `ImportError` is downgraded to a warning. -/
def te_recipe_subtest (env : Env) : PyM Unit :=
  tryImp
    (do
      liftE env.teRecipeImport
      okM .te_recipe_ok
      okM (.te_formats env.teFormats))
    (fun s => warnM (.te_recipe_warn s))

/-- The FP8-state-manager sub-probe of `check_transformer_engine`
(validate.py lines 85-90): only `ImportError` is downgraded. -/
def te_fp8sm_subtest (env : Env) : PyM Unit :=
  tryImp
    (do
      liftE env.teFp8smImport
      okM .te_fp8sm_ok)
    (fun _ => warnM .te_fp8sm_warn)

/-- The layer-types sub-probe of `check_transformer_engine`
(validate.py lines 92-97): only `ImportError` is downgraded. -/
def te_layers_subtest (env : Env) : PyM Unit :=
  tryImp
    (do
      liftE env.teLayersImport
      okM .te_layers_ok)
    (fun s => warnM (.te_layers_warn s))

/-- The forward-pass sub-test of `check_transformer_engine`
(validate.py lines 99-108): under its own `try`, import the runtime;
when an accelerator is available, run one TE forward pass and report the
output shape; any exception is downgraded to a warning.  When no
accelerator is available the body falls through silently. -/
def te_forward_subtest (env : Env) : PyM Unit :=
  tryAll
    (do
      liftE env.torchImport
      if env.cudaAvailable then do
        let sh ← liftE env.teForwardOps
        okM (.te_forward_ok sh)
      else pure ())
    (fun e => warnM (.te_forward_warn e.msg))

/-- `check_transformer_engine` (validate.py lines 66-113): import the
extension and its pytorch integration (both guarded only by the outer
`try`), then four independently guarded sub-probes (recipes, FP8 state
manager, layer types — each catching only `ImportError` — and the
forward pass, catching everything); return `True` on reaching the end,
`False` from the outer handler. -/
def check_transformer_engine (env : Env) : PyM Bool := do
  headerM "2. Transformer Engine"
  tryAll
    (do
      liftE env.teImport
      okM (.te_version env.teVersion)
      liftE env.tePytorchImport
      okM .te_pytorch_ok
      te_recipe_subtest env
      te_fp8sm_subtest env
      te_layers_subtest env
      te_forward_subtest env
      pure true)
    (fun e => do
      failM (.te_error e.msg)
      pure false)

/-- `check_modelopt` (validate.py lines 115-153): import the toolkit;
probe the quantization submodule (catching any exception) and the
export submodule (catching only `ImportError`); return `True` on
reaching the end; at the boundary an `ImportError` yields `False`
("not installed") while any other exception yields `True`
("has issues but is installed").  The `warnings.catch_warnings`
context only filters warning output and has no control effect. -/
def check_modelopt (env : Env) : PyM Bool := do
  headerM "3. ModelOpt"
  tryCatch2
    (do
      liftE env.modeloptImport
      okM (.modelopt_version env.modeloptVersion)
      tryAll
        (do
          liftE env.mtqImport
          okM .mtq_ok
          noteM (.mtq_configs env.mtqConfigCount))
        (fun e => warnM (.mtq_warn e.msg))
      tryImp
        (do
          liftE env.mteImport
          okM .mte_ok)
        (fun _ => noteM .mte_absent)
      pure true)
    (fun s => do
      failM (.modelopt_not_installed s)
      pure false)
    (fun s => do
      warnM (.modelopt_degraded s)
      pure true)

/-- The parallel-state sub-probe of `check_megatron_lm`
(validate.py lines 163-169): its `ImportError` handler warns and sets
the probe's `success` flag to `False`; this embedding returns the flag
value instead of mutating it. -/
def megatron_parallel_subtest (env : Env) : PyM Bool :=
  tryImp
    (do
      liftE env.parallelStateImport
      okM .parallel_state_ok
      pure true)
    (fun s => do
      warnM (.parallel_state_warn s)
      pure false)

/-- The tensor-parallel sub-probe of `check_megatron_lm`
(validate.py lines 171-176): advisory, only `ImportError` caught. -/
def megatron_tp_subtest (env : Env) : PyM Unit :=
  tryImp
    (do
      liftE env.tensorParallelImport
      okM .tensor_parallel_ok)
    (fun s => warnM (.tensor_parallel_warn s))

/-- The transformer-configuration sub-probe of `check_megatron_lm`
(validate.py lines 178-183): advisory, only `ImportError` caught. -/
def megatron_tc_subtest (env : Env) : PyM Unit :=
  tryImp
    (do
      liftE env.transformerConfigImport
      okM .transformer_config_ok)
    (fun s => warnM (.transformer_config_warn s))

/-- The model-construction sub-probe of `check_megatron_lm`
(validate.py lines 185-190): advisory, only `ImportError` caught. -/
def megatron_gpt_subtest (env : Env) : PyM Unit :=
  tryImp
    (do
      liftE env.gptModelImport
      okM .gpt_model_ok)
    (fun s => noteM (.gpt_model_absent s))

/-- The install-location sub-probe of `check_megatron_lm`
(validate.py lines 192-200): resolve the package path and print it when
found; the bare `except: pass` absorbs any exception silently. -/
def megatron_path_subtest (env : Env) : PyM Unit :=
  tryAll
    (do
      let p ← liftE env.megatronPath
      match p with
      | some path => noteM (.megatron_location path)
      | none => pure ())
    (fun _ => pure ())

/-- `check_megatron_lm` (validate.py lines 155-205): import the
package; the parallel-state sub-probe decides the `success` flag; the
tensor-parallel, transformer-config and GPT-model sub-probes are
advisory; location resolution is under a bare `except: pass`; return
the `success` flag, with the outer handler turning any uncaught
exception into `False`. -/
def check_megatron_lm (env : Env) : PyM Bool := do
  headerM "4. Megatron-LM"
  tryAll
    (do
      liftE env.megatronImport
      okM .megatron_ok
      let success ← megatron_parallel_subtest env
      megatron_tp_subtest env
      megatron_tc_subtest env
      megatron_gpt_subtest env
      megatron_path_subtest env
      pure success)
    (fun e => do
      failM (.megatron_error e.msg)
      pure false)

/-- The fixed tools table of `check_additional_tools`
(validate.py lines 212-218), in iteration order, paired with the
outcome the environment assigns to each `__import__`. -/
def tools_table (env : Env) : List (Except Exc Unit × String) :=
  [(env.jupyterImport, "Jupyter"),
   (env.tensorboardImport, "TensorBoard"),
   (env.wandbImport, "Weights and Biases"),
   (env.datasetsImport, "HuggingFace Datasets"),
   (env.transformersImport, "HuggingFace Transformers")]

/-- The `for module, name in tools.items()` loop
(validate.py lines 221-227), threading the `available` counter.  Each
iteration guards only against `ImportError`; any other exception
propagates out of the loop (there is no outer `try` in this probe). -/
def tools_loop : List (Except Exc Unit × String) → Nat → PyM Nat
  | [], n => pure n
  | (imp, name) :: rest, n => do
    let n' ← tryImp
      (do
        liftE imp
        okM (.tool_ok name)
        pure (n + 1))
      (fun _ => do
        noteM (.tool_absent name)
        pure n)
    tools_loop rest n'

/-- `check_additional_tools` (validate.py lines 208-229): try to import
each of the five auxiliary tools, count successes, succeed when at
least one is present.  It has no outer exception boundary. -/
def check_additional_tools (env : Env) : PyM Bool := do
  headerM "5. Additional Tools"
  let available ← tools_loop (tools_table env) 0
  pure (decide (0 < available))

/-- `run_fp8_test` (validate.py lines 231-270): import the runtime, the
TE pytorch integration and the recipe types; return `False` with a
warning when no accelerator is available; note capability below sm_90;
construct the DelayedScaling recipe, run one forward pass inside
`fp8_autocast` and return `True`; the outer handler converts any
exception into a warning and `False`. -/
def run_fp8_test (env : Env) : PyM Bool := do
  headerM "6. FP8 Functional Test"
  tryAll
    (do
      liftE env.torchImport
      liftE env.tePytorchImport
      liftE env.teRecipeImport
      if !env.cudaAvailable then do
        warnM .fp8_skip_no_gpu
        pure false
      else do
        if env.capabilityMajor < 9 then do
          noteM (.fp8_capability env.capabilityMajor env.capabilityMinor)
          noteM .fp8_emulation_note
        else pure ()
        liftE env.fp8RecipeOps
        okM .fp8_recipe_ok
        let sh ← liftE env.fp8ForwardOps
        okM (.fp8_forward_ok sh)
        pure true)
    (fun e => do
      warnM (.fp8_warn e.msg)
      pure false)

/-- The effect of `main` as far as the probes are concerned: the list
of probe names reached (a name enters the trace when control reaches
its call), the printed messages, and either the assembled results
association list or the exception that escaped a probe. -/
structure PyT (α : Type) where
  trace : List String
  msgs : List Msg
  res : Except Exc α
deriving Repr

/-- Sequencing for `PyT`: the continuation runs only when the prefix
completed without an uncaught exception. -/
def PyT.bind (x : PyT α) (f : α → PyT β) : PyT β :=
  match x.res with
  | .error e => ⟨x.trace, x.msgs, .error e⟩
  | .ok a => ⟨x.trace ++ (f a).trace, x.msgs ++ (f a).msgs, (f a).res⟩

instance : Monad PyT where
  pure a := ⟨[], [], .ok a⟩
  bind := PyT.bind

/-- One `results[name] = probe()` statement of `main`: the probe is
invoked (its name enters the trace) and its result recorded, unless an
exception escapes it. -/
def invoke (name : String) (p : PyM Bool) : PyT Bool :=
  ⟨[name], p.msgs, p.res⟩

/-- The probe-running part of `main` (validate.py lines 277-285): the
six probes in program order, each result keyed by its dict key, the
dict rendered as an association list in insertion order. -/
def main_results (env : Env) : PyT (List (String × Bool)) := do
  let r1 ← invoke "pytorch" (check_pytorch env)
  let r2 ← invoke "transformer_engine" (check_transformer_engine env)
  let r3 ← invoke "modelopt" (check_modelopt env)
  let r4 ← invoke "megatron_lm" (check_megatron_lm env)
  let r5 ← invoke "additional_tools" (check_additional_tools env)
  let r6 ← invoke "fp8_test" (run_fp8_test env)
  pure [("pytorch", r1), ("transformer_engine", r2), ("modelopt", r3),
        ("megatron_lm", r4), ("additional_tools", r5), ("fp8_test", r6)]

/-- `required = ['pytorch', 'transformer_engine', 'megatron_lm']`
(validate.py line 291). -/
def required_checks : List String := ["pytorch", "transformer_engine", "megatron_lm"]

/-- `optional = ['modelopt', 'additional_tools', 'fp8_test']`
(validate.py line 292). -/
def optional_checks : List String := ["modelopt", "additional_tools", "fp8_test"]

/-- `required_pass = all(results[k] for k in required)`
(validate.py line 294).  The `results[k]` subscript is total here
because every required key is present in the results list. -/
def required_pass (rs : List (String × Bool)) : Bool :=
  required_checks.all fun k => rs.lookup k == some true

/-- The process exit status of `main` (validate.py lines 308-312):
`sys.exit(1)` when a required check failed, falling off the end
(status 0) otherwise; an exception escaping a probe is propagated
(`main` has no handler of its own). -/
def main_exit (env : Env) : Except Exc Nat :=
  match (main_results env).res with
  | .error e => .error e
  | .ok rs => .ok (if required_pass rs then 0 else 1)

/-- Whether a fragment outcome is a normal return (no uncaught
exception). -/
def resOk : Except Exc α → Bool
  | .ok _ => true
  | .error _ => false

/-- A library operation outcome that the `except ImportError` handlers
can absorb: a success or an `ImportError`, but not another exception. -/
def tame : Except Exc Unit → Bool
  | .error (.otherError _) => false
  | _ => true

/-- All five auxiliary-tool imports are tame (succeed or raise
`ImportError`). -/
def tools_tame (env : Env) : Bool :=
  tame env.jupyterImport && tame env.tensorboardImport && tame env.wandbImport
    && tame env.datasetsImport && tame env.transformersImport

/-- Whether a printed line comes from one of the two forward-pass print
sites of the `check_transformer_engine` sub-test (lines 106 and 108). -/
def isForwardPassMsg (m : Msg) : Bool :=
  match m.text with
  | .te_forward_ok _ => true
  | .te_forward_warn _ => true
  | _ => false

/-- The results dict produced on a fully healthy environment. -/
def all_true_results : List (String × Bool) :=
  [("pytorch", true), ("transformer_engine", true), ("modelopt", true),
   ("megatron_lm", true), ("additional_tools", true), ("fp8_test", true)]

/-- A fully healthy environment: every import succeeds, an accelerator
with sm_90 capability is present, every illustrative operation works. -/
def envAllOk : Env where
  torchImport := .ok ()
  torchVersion := "2.4.0"
  cudaAvailable := true
  cudaVersion := "12.5"
  gpuCount := 1
  gpuName := fun _ => "H100"
  gpuMem := fun _ => "80.0"
  cudaTensorOps := .ok ()
  teImport := .ok ()
  teVersion := "1.9"
  tePytorchImport := .ok ()
  teRecipeImport := .ok ()
  teFormats := ["E4M3", "HYBRID"]
  teFp8smImport := .ok ()
  teLayersImport := .ok ()
  teForwardOps := .ok "8x256"
  modeloptImport := .ok ()
  modeloptVersion := "0.15"
  mtqImport := .ok ()
  mtqConfigCount := 12
  mteImport := .ok ()
  megatronImport := .ok ()
  parallelStateImport := .ok ()
  tensorParallelImport := .ok ()
  transformerConfigImport := .ok ()
  gptModelImport := .ok ()
  megatronPath := .ok (some "/opt/megatron")
  jupyterImport := .ok ()
  tensorboardImport := .ok ()
  wandbImport := .ok ()
  datasetsImport := .ok ()
  transformersImport := .ok ()
  capabilityMajor := 9
  capabilityMinor := 0
  fp8RecipeOps := .ok ()
  fp8ForwardOps := .ok "8x32x512"

/-- A healthy environment except that no accelerator is present. -/
def envNoGpu : Env := { envAllOk with cudaAvailable := false }

/-- No accelerator and the extension's pytorch integration missing. -/
def envNoGpuNoTe : Env :=
  { envNoGpu with tePytorchImport := .error (.importError "no te") }

/-- `import jupyter` raises a non-ImportError exception (a tool whose
top-level initialisation code crashes). -/
def envToolRaises : Env :=
  { envAllOk with jupyterImport := .error (.otherError "jupyter init crashed") }

/-- `import transformers` (the last tool probed) raises a
non-ImportError exception. -/
def envLastToolRaises : Env :=
  { envAllOk with transformersImport := .error (.otherError "transformers init crashed") }

/-- `import transformer_engine.pytorch` raises `ImportError` while the
top-level `import transformer_engine` succeeded. -/
def envTePytorchMissing : Env :=
  { envAllOk with tePytorchImport := .error (.importError "no pytorch integration") }

/-- The tensor-parallel sub-probe of `check_megatron_lm` raises a
non-ImportError exception while both required imports succeed. -/
def envTensorParallelRaises : Env :=
  { envAllOk with tensorParallelImport := .error (.otherError "cuda init failed") }

/-- ModelOpt is installed but both submodule probes raise. -/
def envModeloptDegraded : Env :=
  { envAllOk with
    mtqImport := .error (.otherError "Conv1D plugin failure")
    mteImport := .error (.otherError "apex plugin failure") }

/-- `import modelopt` itself raises `ImportError`. -/
def envModeloptMissing : Env :=
  { envAllOk with modeloptImport := .error (.importError "No module named modelopt") }

/-- `import modelopt` itself raises a non-ImportError exception. -/
def envModeloptBroken : Env :=
  { envAllOk with modeloptImport := .error (.otherError "CUDA driver mismatch") }

/-! ## Basic lemmas about the embedding's combinators -/

@[simp] theorem PyM.res_pure (a : α) : (pure a : PyM α).res = .ok a := rfl

@[simp] theorem PyM.msgs_pure (a : α) : (pure a : PyM α).msgs = [] := rfl

@[simp] theorem PyM.res_bind (x : PyM α) (f : α → PyM β) :
    (x >>= f).res = match x.res with
      | .error e => .error e
      | .ok a => (f a).res := by
  show (PyM.bind x f).res = _
  unfold PyM.bind
  cases x.res <;> rfl

@[simp] theorem PyM.msgs_bind (x : PyM α) (f : α → PyM β) :
    (x >>= f).msgs = match x.res with
      | .error _ => x.msgs
      | .ok a => x.msgs ++ (f a).msgs := by
  show (PyM.bind x f).msgs = _
  unfold PyM.bind
  cases x.res <;> rfl

@[simp] theorem res_liftE (r : Except Exc α) : (liftE r).res = r := rfl
@[simp] theorem msgs_liftE (r : Except Exc α) : (liftE r).msgs = [] := rfl
@[simp] theorem res_okM (t) : (okM t).res = .ok () := rfl
@[simp] theorem msgs_okM (t) : (okM t).msgs = [⟨.success, t⟩] := rfl
@[simp] theorem res_failM (t) : (failM t).res = .ok () := rfl
@[simp] theorem msgs_failM (t) : (failM t).msgs = [⟨.failure, t⟩] := rfl
@[simp] theorem res_warnM (t) : (warnM t).res = .ok () := rfl
@[simp] theorem msgs_warnM (t) : (warnM t).msgs = [⟨.warning, t⟩] := rfl
@[simp] theorem res_noteM (t) : (noteM t).res = .ok () := rfl
@[simp] theorem msgs_noteM (t) : (noteM t).msgs = [⟨.note, t⟩] := rfl
@[simp] theorem res_headerM (s) : (headerM s).res = .ok () := rfl
@[simp] theorem msgs_headerM (s) : (headerM s).msgs = [⟨.heading, .heading_line s⟩] := rfl
@[simp] theorem res_emitAll (ms) : (emitAll ms).res = .ok () := rfl
@[simp] theorem msgs_emitAll (ms) : (emitAll ms).msgs = ms := rfl

@[simp] theorem res_tryAll (x : PyM α) (h : Exc → PyM α) :
    (tryAll x h).res = match x.res with
      | .error e => (h e).res
      | .ok a => .ok a := by
  unfold tryAll
  cases x.res <;> rfl

@[simp] theorem msgs_tryAll (x : PyM α) (h : Exc → PyM α) :
    (tryAll x h).msgs = match x.res with
      | .error e => x.msgs ++ (h e).msgs
      | .ok _ => x.msgs := by
  unfold tryAll
  cases x.res <;> rfl

@[simp] theorem res_tryImp (x : PyM α) (h : String → PyM α) :
    (tryImp x h).res = match x.res with
      | .error (.importError s) => (h s).res
      | .error (.otherError s) => .error (.otherError s)
      | .ok a => .ok a := by
  unfold tryImp
  rcases hr : x.res with e | a
  · cases e <;> rfl
  · rfl

@[simp] theorem msgs_tryImp (x : PyM α) (h : String → PyM α) :
    (tryImp x h).msgs = match x.res with
      | .error (.importError s) => x.msgs ++ (h s).msgs
      | .error (.otherError _) => x.msgs
      | .ok _ => x.msgs := by
  unfold tryImp
  rcases hr : x.res with e | a
  · cases e <;> rfl
  · rfl

@[simp] theorem res_tryCatch2 (x : PyM α) (hi ho : String → PyM α) :
    (tryCatch2 x hi ho).res = match x.res with
      | .error (.importError s) => (hi s).res
      | .error (.otherError s) => (ho s).res
      | .ok a => .ok a := by
  unfold tryCatch2
  rcases hr : x.res with e | a
  · cases e <;> rfl
  · rfl

@[simp] theorem msgs_tryCatch2 (x : PyM α) (hi ho : String → PyM α) :
    (tryCatch2 x hi ho).msgs = match x.res with
      | .error (.importError s) => x.msgs ++ (hi s).msgs
      | .error (.otherError s) => x.msgs ++ (ho s).msgs
      | .ok _ => x.msgs := by
  unfold tryCatch2
  rcases hr : x.res with e | a
  · cases e <;> rfl
  · rfl

@[simp] theorem PyT_res_pure (a : α) : (pure a : PyT α).res = .ok a := rfl

@[simp] theorem PyT.trace_pure (a : α) : (pure a : PyT α).trace = [] := rfl

@[simp] theorem PyT_res_bind (x : PyT α) (f : α → PyT β) :
    (x >>= f).res = match x.res with
      | .error e => .error e
      | .ok a => (f a).res := by
  show (PyT.bind x f).res = _
  unfold PyT.bind
  cases x.res <;> rfl

@[simp] theorem PyT.trace_bind (x : PyT α) (f : α → PyT β) :
    (x >>= f).trace = match x.res with
      | .error _ => x.trace
      | .ok a => x.trace ++ (f a).trace := by
  show (PyT.bind x f).trace = _
  unfold PyT.bind
  cases x.res <;> rfl

@[simp] theorem res_invoke (name : String) (p : PyM Bool) :
    (invoke name p).res = p.res := rfl

@[simp] theorem trace_invoke (name : String) (p : PyM Bool) :
    (invoke name p).trace = [name] := rfl

theorem resOk_tryAll (x : PyM α) (h : Exc → PyM α)
    (hh : ∀ e, resOk (h e).res = true) : resOk (tryAll x h).res = true := by
  rcases hx : x.res with e | a
  · simp only [res_tryAll, hx]
    exact hh e
  · simp [res_tryAll, hx, resOk]

theorem resOk_tryCatch2 (x : PyM α) (hi ho : String → PyM α)
    (hhi : ∀ s, resOk (hi s).res = true) (hho : ∀ s, resOk (ho s).res = true) :
    resOk (tryCatch2 x hi ho).res = true := by
  rcases hx : x.res with (s | s) | a
  · simp only [res_tryCatch2, hx]
    exact hhi s
  · simp only [res_tryCatch2, hx]
    exact hho s
  · simp [res_tryCatch2, hx, resOk]

theorem exists_ok_of_resOk (r : Except Exc α) (h : resOk r = true) :
    ∃ a, r = .ok a := by
  cases r with
  | error e => simp [resOk] at h
  | ok a => exact ⟨a, rfl⟩

theorem tame_cases (r : Except Exc Unit) (h : tame r = true) :
    r = .ok () ∨ ∃ s, r = .error (.importError s) := by
  rcases r with (s | s) | ⟨⟩
  · exact .inr ⟨s, rfl⟩
  · simp [tame] at h
  · exact .inl rfl

/-! ## Sanity checks of the embedding on concrete environments -/

example : (check_pytorch envAllOk).res = .ok true := by rfl
example : (check_transformer_engine envAllOk).res = .ok true := by rfl
example : (check_modelopt envAllOk).res = .ok true := by rfl
example : (check_megatron_lm envAllOk).res = .ok true := by rfl
example : (check_additional_tools envAllOk).res = .ok true := by rfl
example : (run_fp8_test envAllOk).res = .ok true := by rfl
example : main_exit envAllOk = .ok 0 := by rfl
example : (main_results envAllOk).trace =
    ["pytorch", "transformer_engine", "modelopt", "megatron_lm",
     "additional_tools", "fp8_test"] := by rfl
example : (check_pytorch envNoGpu).res = .ok false := by rfl
example : (run_fp8_test envNoGpuNoTe).res = .ok false := by rfl
example : (check_modelopt envModeloptDegraded).res = .ok true := by rfl

/-! ## Result characterisations of the guarded sub-blocks -/

theorem te_recipe_subtest_res (env : Env) :
    (te_recipe_subtest env).res = match env.teRecipeImport with
      | .error (.otherError s) => .error (.otherError s)
      | _ => .ok () := by
  rcases h : env.teRecipeImport with (s | s) | ⟨⟩ <;> simp [te_recipe_subtest, h]

theorem te_recipe_subtest_msgs (env : Env) :
    (te_recipe_subtest env).msgs = match env.teRecipeImport with
      | .ok _ => [⟨.success, .te_recipe_ok⟩, ⟨.success, .te_formats env.teFormats⟩]
      | .error (.importError s) => [⟨.warning, .te_recipe_warn s⟩]
      | .error (.otherError _) => [] := by
  rcases h : env.teRecipeImport with (s | s) | ⟨⟩ <;> simp [te_recipe_subtest, h]

theorem te_fp8sm_subtest_res (env : Env) :
    (te_fp8sm_subtest env).res = match env.teFp8smImport with
      | .error (.otherError s) => .error (.otherError s)
      | _ => .ok () := by
  rcases h : env.teFp8smImport with (s | s) | ⟨⟩ <;> simp [te_fp8sm_subtest, h]

theorem te_fp8sm_subtest_msgs (env : Env) :
    (te_fp8sm_subtest env).msgs = match env.teFp8smImport with
      | .ok _ => [⟨.success, .te_fp8sm_ok⟩]
      | .error (.importError _) => [⟨.warning, .te_fp8sm_warn⟩]
      | .error (.otherError _) => [] := by
  rcases h : env.teFp8smImport with (s | s) | ⟨⟩ <;> simp [te_fp8sm_subtest, h]

theorem te_layers_subtest_res (env : Env) :
    (te_layers_subtest env).res = match env.teLayersImport with
      | .error (.otherError s) => .error (.otherError s)
      | _ => .ok () := by
  rcases h : env.teLayersImport with (s | s) | ⟨⟩ <;> simp [te_layers_subtest, h]

theorem te_layers_subtest_msgs (env : Env) :
    (te_layers_subtest env).msgs = match env.teLayersImport with
      | .ok _ => [⟨.success, .te_layers_ok⟩]
      | .error (.importError s) => [⟨.warning, .te_layers_warn s⟩]
      | .error (.otherError _) => [] := by
  rcases h : env.teLayersImport with (s | s) | ⟨⟩ <;> simp [te_layers_subtest, h]

theorem te_forward_subtest_total (env : Env) :
    (te_forward_subtest env).res = .ok () := by
  rcases h1 : env.torchImport with (s1 | s1) | ⟨⟩ <;>
    rcases h2 : env.teForwardOps with (s2 | s2) | u2 <;>
      cases h3 : env.cudaAvailable <;>
        simp [te_forward_subtest, h1, h2, h3]

theorem te_forward_subtest_silent (env : Env)
    (ht : env.torchImport = .ok ()) (hc : env.cudaAvailable = false) :
    te_forward_subtest env = ⟨[], .ok ()⟩ := by
  simp [te_forward_subtest, ht, hc, tryAll]

theorem megatron_parallel_subtest_res (env : Env) :
    (megatron_parallel_subtest env).res = match env.parallelStateImport with
      | .ok _ => .ok true
      | .error (.importError _) => .ok false
      | .error (.otherError s) => .error (.otherError s) := by
  rcases h : env.parallelStateImport with (s | s) | ⟨⟩ <;>
    simp [megatron_parallel_subtest, h]

theorem megatron_tp_subtest_res (env : Env) :
    (megatron_tp_subtest env).res = match env.tensorParallelImport with
      | .error (.otherError s) => .error (.otherError s)
      | _ => .ok () := by
  rcases h : env.tensorParallelImport with (s | s) | ⟨⟩ <;>
    simp [megatron_tp_subtest, h]

theorem megatron_tc_subtest_res (env : Env) :
    (megatron_tc_subtest env).res = match env.transformerConfigImport with
      | .error (.otherError s) => .error (.otherError s)
      | _ => .ok () := by
  rcases h : env.transformerConfigImport with (s | s) | ⟨⟩ <;>
    simp [megatron_tc_subtest, h]

theorem megatron_gpt_subtest_res (env : Env) :
    (megatron_gpt_subtest env).res = match env.gptModelImport with
      | .error (.otherError s) => .error (.otherError s)
      | _ => .ok () := by
  rcases h : env.gptModelImport with (s | s) | ⟨⟩ <;>
    simp [megatron_gpt_subtest, h]

theorem megatron_path_subtest_total (env : Env) :
    (megatron_path_subtest env).res = .ok () := by
  rcases h1 : env.megatronPath with (s1 | s1) | (_ | p1) <;>
    simp [megatron_path_subtest, h1]

/-! ## Totality of the probes -/

theorem check_pytorch_total (env : Env) : resOk (check_pytorch env).res = true := by
  rcases h1 : env.torchImport with (s1 | s1) | ⟨⟩ <;>
    rcases h2 : env.cudaTensorOps with (s2 | s2) | ⟨⟩ <;>
      cases h3 : env.cudaAvailable <;>
        simp [check_pytorch, h1, h2, h3, resOk]

theorem check_transformer_engine_total (env : Env) :
    resOk (check_transformer_engine env).res = true := by
  unfold check_transformer_engine
  simp only [PyM.res_bind, res_headerM]
  exact resOk_tryAll _ _ (fun e => by simp [resOk])

theorem check_modelopt_total (env : Env) : resOk (check_modelopt env).res = true := by
  unfold check_modelopt
  simp only [PyM.res_bind, res_headerM]
  exact resOk_tryCatch2 _ _ _ (fun s => by simp [resOk]) (fun s => by simp [resOk])

theorem check_megatron_lm_total (env : Env) :
    resOk (check_megatron_lm env).res = true := by
  unfold check_megatron_lm
  simp only [PyM.res_bind, res_headerM]
  exact resOk_tryAll _ _ (fun e => by simp [resOk])

theorem run_fp8_test_total (env : Env) : resOk (run_fp8_test env).res = true := by
  unfold run_fp8_test
  simp only [PyM.res_bind, res_headerM]
  exact resOk_tryAll _ _ (fun e => by simp [resOk])

theorem check_additional_tools_total (env : Env) (h : tools_tame env = true) :
    resOk (check_additional_tools env).res = true := by
  simp only [tools_tame, Bool.and_eq_true] at h
  obtain ⟨⟨⟨⟨h1, h2⟩, h3⟩, h4⟩, h5⟩ := h
  rcases tame_cases _ h1 with h1 | ⟨s1, h1⟩ <;>
    rcases tame_cases _ h2 with h2 | ⟨s2, h2⟩ <;>
      rcases tame_cases _ h3 with h3 | ⟨s3, h3⟩ <;>
        rcases tame_cases _ h4 with h4 | ⟨s4, h4⟩ <;>
          rcases tame_cases _ h5 with h5 | ⟨s5, h5⟩ <;>
            simp [check_additional_tools, tools_table, tools_loop,
              h1, h2, h3, h4, h5, resOk]

/-! ## The shape of the results assembled by `main` -/

theorem main_results_res (env : Env) (b1 b2 b3 b4 b5 b6 : Bool)
    (h1 : (check_pytorch env).res = .ok b1)
    (h2 : (check_transformer_engine env).res = .ok b2)
    (h3 : (check_modelopt env).res = .ok b3)
    (h4 : (check_megatron_lm env).res = .ok b4)
    (h5 : (check_additional_tools env).res = .ok b5)
    (h6 : (run_fp8_test env).res = .ok b6) :
    (main_results env).res =
      .ok [("pytorch", b1), ("transformer_engine", b2), ("modelopt", b3),
           ("megatron_lm", b4), ("additional_tools", b5), ("fp8_test", b6)] := by
  simp [main_results, h1, h2, h3, h4, h5, h6]

theorem main_results_res_err (env : Env) (e : Exc) {b1 b2 b3 b4 : Bool}
    (h1 : (check_pytorch env).res = .ok b1)
    (h2 : (check_transformer_engine env).res = .ok b2)
    (h3 : (check_modelopt env).res = .ok b3)
    (h4 : (check_megatron_lm env).res = .ok b4)
    (h5 : (check_additional_tools env).res = .error e) :
    (main_results env).res = .error e := by
  simp [main_results, h1, h2, h3, h4, h5]

theorem main_results_trace (env : Env) (b1 b2 b3 b4 b5 : Bool)
    (h1 : (check_pytorch env).res = .ok b1)
    (h2 : (check_transformer_engine env).res = .ok b2)
    (h3 : (check_modelopt env).res = .ok b3)
    (h4 : (check_megatron_lm env).res = .ok b4)
    (h5 : (check_additional_tools env).res = .ok b5) :
    (main_results env).trace =
      ["pytorch", "transformer_engine", "modelopt", "megatron_lm",
       "additional_tools", "fp8_test"] := by
  simp [main_results, h1, h2, h3, h4, h5]
  cases (run_fp8_test env).res <;> rfl

theorem main_results_ok_shape (env : Env) (rs : List (String × Bool))
    (h : (main_results env).res = .ok rs) :
    ∃ b1 b2 b3 b4 b5 b6 : Bool,
      rs = [("pytorch", b1), ("transformer_engine", b2), ("modelopt", b3),
            ("megatron_lm", b4), ("additional_tools", b5), ("fp8_test", b6)] := by
  obtain ⟨b1, h1⟩ := exists_ok_of_resOk _ (check_pytorch_total env)
  obtain ⟨b2, h2⟩ := exists_ok_of_resOk _ (check_transformer_engine_total env)
  obtain ⟨b3, h3⟩ := exists_ok_of_resOk _ (check_modelopt_total env)
  obtain ⟨b4, h4⟩ := exists_ok_of_resOk _ (check_megatron_lm_total env)
  obtain ⟨b6, h6⟩ := exists_ok_of_resOk _ (run_fp8_test_total env)
  rcases h5x : (check_additional_tools env).res with e | b5
  · rw [main_results_res_err env e h1 h2 h3 h4 h5x] at h
    cases h
  · rw [main_results_res env b1 b2 b3 b4 b5 b6 h1 h2 h3 h4 h5x h6] at h
    exact ⟨b1, b2, b3, b4, b5, b6, by simpa using h.symm⟩

/-! ## The claims -/

/-- Claim C1: when `main` completes, its exit status is 0 exactly when
the three required checks (`pytorch`, `transformer_engine`,
`megatron_lm`) all recorded `true`, and is 1 otherwise; it is therefore
a function of the three required entries alone, independent of the
optional entries (`modelopt`, `additional_tools`, `fp8_test`). -/
theorem C1_exit_status (env : Env) (rs : List (String × Bool))
    (h : (main_results env).res = .ok rs) :
    (main_exit env = .ok 0 ↔
      (rs.lookup "pytorch" = some true ∧
       rs.lookup "transformer_engine" = some true ∧
       rs.lookup "megatron_lm" = some true)) ∧
    (main_exit env = .ok 0 ∨ main_exit env = .ok 1) := by
  obtain ⟨b1, b2, b3, b4, b5, b6, rfl⟩ := main_results_ok_shape env rs h
  simp only [main_exit, h]
  cases b1 <;> cases b2 <;> cases b4 <;>
    simp [required_pass, required_checks, List.lookup]

/-- Claim C1 witness: on the fully healthy environment the exit status
is 0 and the equivalence holds. -/
theorem C1_witness :
    (main_exit envAllOk = .ok 0 ↔
      (all_true_results.lookup "pytorch" = some true ∧
       all_true_results.lookup "transformer_engine" = some true ∧
       all_true_results.lookup "megatron_lm" = some true)) ∧
    (main_exit envAllOk = .ok 0 ∨ main_exit envAllOk = .ok 1) :=
  C1_exit_status envAllOk all_true_results rfl

/-- Claim C2 counterexample: a non-ImportError exception raised by one
of the auxiliary-tool imports escapes `check_additional_tools` uncaught
(the loop's handler catches only `ImportError` and the probe has no
outer `try`), so not every probe is exception-safe for every behaviour
of the underlying imports. -/
theorem C2_counterexample :
    (check_additional_tools envToolRaises).res =
      .error (.otherError "jupyter init crashed") := by rfl

/-- Claim C2 (amended): each of `check_pytorch`,
`check_transformer_engine`, `check_modelopt`, `check_megatron_lm` and
`run_fp8_test` returns a boolean for every behaviour of the underlying
imports and calls, and `check_additional_tools` does so provided each
of its five tool imports either succeeds or raises `ImportError` (a
non-ImportError tool exception escapes it). -/
theorem C2_probes_total (env : Env) (h : tools_tame env = true) :
    resOk (check_pytorch env).res = true ∧
    resOk (check_transformer_engine env).res = true ∧
    resOk (check_modelopt env).res = true ∧
    resOk (check_megatron_lm env).res = true ∧
    resOk (check_additional_tools env).res = true ∧
    resOk (run_fp8_test env).res = true :=
  ⟨check_pytorch_total env, check_transformer_engine_total env,
   check_modelopt_total env, check_megatron_lm_total env,
   check_additional_tools_total env h, run_fp8_test_total env⟩

/-- Claim C2 witness: on the fully healthy environment every probe
returns a boolean. -/
theorem C2_witness :
    resOk (check_pytorch envAllOk).res = true ∧
    resOk (check_transformer_engine envAllOk).res = true ∧
    resOk (check_modelopt envAllOk).res = true ∧
    resOk (check_megatron_lm envAllOk).res = true ∧
    resOk (check_additional_tools envAllOk).res = true ∧
    resOk (run_fp8_test envAllOk).res = true :=
  C2_probes_total envAllOk rfl

/-- Claim C3 counterexample: with the top-level
`import transformer_engine` succeeding but
`import transformer_engine.pytorch` raising `ImportError`, the probe
returns `False` — the training-integration subpackage failure is not
downgraded to a warning (it is guarded only by the outer `try`). -/
theorem C3_counterexample :
    envTePytorchMissing.teImport = .ok () ∧
    (check_transformer_engine envTePytorchMissing).res = .ok false :=
  ⟨rfl, rfl⟩

/-- Claim C3 (amended): `check_transformer_engine` returns `true`
exactly when the top-level import AND the pytorch-integration import
succeed and the recipe, FP8-state-manager and layer sub-probes raise
nothing but `ImportError`; those three sub-probe `ImportError`s and any
forward-pass failure are downgraded to warnings. -/
theorem C3_te_success_iff (env : Env) :
    (check_transformer_engine env).res = .ok true ↔
      (env.teImport = .ok () ∧ env.tePytorchImport = .ok () ∧
       tame env.teRecipeImport = true ∧ tame env.teFp8smImport = true ∧
       tame env.teLayersImport = true) := by
  rcases h1 : env.teImport with (s1 | s1) | ⟨⟩ <;>
    rcases h2 : env.tePytorchImport with (s2 | s2) | ⟨⟩ <;>
      rcases h3 : env.teRecipeImport with (s3 | s3) | ⟨⟩ <;>
        rcases h4 : env.teFp8smImport with (s4 | s4) | ⟨⟩ <;>
          rcases h5 : env.teLayersImport with (s5 | s5) | ⟨⟩ <;>
            simp [check_transformer_engine, h1, h2, h3, h4, h5,
              te_recipe_subtest_res, te_fp8sm_subtest_res, te_layers_subtest_res,
              te_forward_subtest_total, tame]

/-- Claim C4: `check_modelopt` returns `true` whenever the top-level
`import modelopt` succeeds, whatever the quantization and export
sub-probes do (their exceptions are either caught locally or absorbed
by the outer `except Exception` handler, which still returns `True`). -/
theorem C4_modelopt_installed (env : Env) (h : env.modeloptImport = .ok ()) :
    (check_modelopt env).res = .ok true := by
  rcases h2 : env.mtqImport with (s2 | s2) | ⟨⟩ <;>
    rcases h3 : env.mteImport with (s3 | s3) | ⟨⟩ <;>
      simp [check_modelopt, h, h2, h3]

/-- Claim C4 witness: with ModelOpt importable but both submodule
probes raising non-ImportError exceptions, the check still passes. -/
theorem C4_witness : (check_modelopt envModeloptDegraded).res = .ok true :=
  C4_modelopt_installed envModeloptDegraded rfl

/-- Claim C5 counterexample: with both required imports succeeding but
the tensor-parallel sub-probe raising a non-ImportError exception, the
probe returns `false` — the advisory sub-probe's failure does change
the returned value (its handler catches only `ImportError`, so the
exception falls through to the outer handler). -/
theorem C5_counterexample :
    envTensorParallelRaises.megatronImport = .ok () ∧
    envTensorParallelRaises.parallelStateImport = .ok () ∧
    (check_megatron_lm envTensorParallelRaises).res = .ok false :=
  ⟨rfl, rfl, rfl⟩

/-- Claim C5 (amended): `check_megatron_lm` returns `true` exactly when
the top-level import and the parallel-state import succeed and the
tensor-parallel, transformer-configuration and model-construction
sub-probes raise nothing but `ImportError`; the install-location
sub-probe never affects the returned value (its bare `except` absorbs
everything). -/
theorem C5_megatron_success_iff (env : Env) :
    (check_megatron_lm env).res = .ok true ↔
      (env.megatronImport = .ok () ∧ env.parallelStateImport = .ok () ∧
       tame env.tensorParallelImport = true ∧
       tame env.transformerConfigImport = true ∧
       tame env.gptModelImport = true) := by
  rcases h1 : env.megatronImport with (s1 | s1) | ⟨⟩ <;>
    rcases h2 : env.parallelStateImport with (s2 | s2) | ⟨⟩ <;>
      rcases h3 : env.tensorParallelImport with (s3 | s3) | ⟨⟩ <;>
        rcases h4 : env.transformerConfigImport with (s4 | s4) | ⟨⟩ <;>
          rcases h5 : env.gptModelImport with (s5 | s5) | ⟨⟩ <;>
            simp [check_megatron_lm, h1, h2, h3, h4, h5,
              megatron_parallel_subtest_res, megatron_tp_subtest_res,
              megatron_tc_subtest_res, megatron_gpt_subtest_res,
              megatron_path_subtest_total, tame]

/-- Claim C6: `run_fp8_test` returns `false` without raising whenever
no accelerator is present, for every behaviour of the runtime and
extension imports (an importable extension reaches the explicit skip
branch; a failing import is caught by the outer handler). -/
theorem C6_fp8_skip_no_gpu (env : Env) (h : env.cudaAvailable = false) :
    (run_fp8_test env).res = .ok false := by
  rcases h1 : env.torchImport with (s1 | s1) | ⟨⟩ <;>
    rcases h2 : env.tePytorchImport with (s2 | s2) | ⟨⟩ <;>
      rcases h3 : env.teRecipeImport with (s3 | s3) | ⟨⟩ <;>
        simp [run_fp8_test, h, h1, h2, h3]

/-- Claim C6 witness: the no-accelerator skip, both with the extension
importable and with its pytorch integration missing. -/
theorem C6_witness :
    (run_fp8_test envNoGpu).res = .ok false ∧
    (run_fp8_test envNoGpuNoTe).res = .ok false :=
  ⟨C6_fp8_skip_no_gpu envNoGpu rfl, C6_fp8_skip_no_gpu envNoGpuNoTe rfl⟩

/-- Claim C7 counterexample: when the last auxiliary-tool import raises
a non-ImportError exception, `run_fp8_test` is never invoked — a
probe's failure does affect whether a later probe runs. -/
theorem C7_counterexample :
    (main_results envLastToolRaises).trace =
      ["pytorch", "transformer_engine", "modelopt", "megatron_lm",
       "additional_tools"] ∧
    "fp8_test" ∉ (main_results envLastToolRaises).trace := by
  refine ⟨rfl, ?_⟩
  rw [show (main_results envLastToolRaises).trace =
      ["pytorch", "transformer_engine", "modelopt", "megatron_lm",
       "additional_tools"] from rfl]
  decide

/-- Claim C7 (amended): provided every auxiliary-tool import either
succeeds or raises `ImportError` (so that no probe raises), `main`
invokes all six probes, each exactly once, in the fixed program order,
whatever boolean any probe returns. -/
theorem C7_fixed_order (env : Env) (h : tools_tame env = true) :
    (main_results env).trace =
      ["pytorch", "transformer_engine", "modelopt", "megatron_lm",
       "additional_tools", "fp8_test"] := by
  obtain ⟨b1, h1⟩ := exists_ok_of_resOk _ (check_pytorch_total env)
  obtain ⟨b2, h2⟩ := exists_ok_of_resOk _ (check_transformer_engine_total env)
  obtain ⟨b3, h3⟩ := exists_ok_of_resOk _ (check_modelopt_total env)
  obtain ⟨b4, h4⟩ := exists_ok_of_resOk _ (check_megatron_lm_total env)
  obtain ⟨b5, h5⟩ := exists_ok_of_resOk _ (check_additional_tools_total env h)
  exact main_results_trace env b1 b2 b3 b4 b5 h1 h2 h3 h4 h5

/-- Claim C7 witness: the fixed six-probe order on the healthy
environment. -/
theorem C7_witness :
    (main_results envAllOk).trace =
      ["pytorch", "transformer_engine", "modelopt", "megatron_lm",
       "additional_tools", "fp8_test"] :=
  C7_fixed_order envAllOk rfl

/-- Claim C8: whenever `main` assembles its results dict, every check
name of the `required` and `optional` summary lists is a key of it, so
every `results[k]` lookup of the summary is defined. -/
theorem C8_summary_keys (env : Env) (rs : List (String × Bool)) (k : String)
    (h : (main_results env).res = .ok rs)
    (hk : k ∈ required_checks ++ optional_checks) :
    (rs.lookup k).isSome = true := by
  obtain ⟨b1, b2, b3, b4, b5, b6, rfl⟩ := main_results_ok_shape env rs h
  simp [required_checks, optional_checks] at hk
  rcases hk with rfl | rfl | rfl | rfl | rfl | rfl <;> simp [List.lookup]

/-- Claim C8 witness: on the healthy environment, all six summary keys
are present in the results dict. -/
theorem C8_witness :
    (all_true_results.lookup "pytorch").isSome = true ∧
    (all_true_results.lookup "transformer_engine").isSome = true ∧
    (all_true_results.lookup "megatron_lm").isSome = true ∧
    (all_true_results.lookup "modelopt").isSome = true ∧
    (all_true_results.lookup "additional_tools").isSome = true ∧
    (all_true_results.lookup "fp8_test").isSome = true :=
  ⟨C8_summary_keys envAllOk all_true_results "pytorch" rfl (by decide),
   C8_summary_keys envAllOk all_true_results "transformer_engine" rfl (by decide),
   C8_summary_keys envAllOk all_true_results "megatron_lm" rfl (by decide),
   C8_summary_keys envAllOk all_true_results "modelopt" rfl (by decide),
   C8_summary_keys envAllOk all_true_results "additional_tools" rfl (by decide),
   C8_summary_keys envAllOk all_true_results "fp8_test" rfl (by decide)⟩

/-- Claim C9: in `check_transformer_engine`, when the runtime imports
but reports no accelerator, the forward-pass sub-test is silently
skipped — no message from either of its print sites appears in the
probe's output, whatever the other sub-probes do — and on such an
environment the probe can still return `true` (witnessed by the
concrete no-accelerator environment). -/
theorem C9_forward_pass_silent (env : Env)
    (ht : env.torchImport = .ok ()) (hc : env.cudaAvailable = false) :
    (check_transformer_engine env).msgs.all (fun m => !isForwardPassMsg m) = true ∧
    (check_transformer_engine envNoGpu).res = .ok true := by
  constructor
  · rcases h1 : env.teImport with (s1 | s1) | ⟨⟩ <;>
      rcases h2 : env.tePytorchImport with (s2 | s2) | ⟨⟩ <;>
        rcases h3 : env.teRecipeImport with (s3 | s3) | ⟨⟩ <;>
          rcases h4 : env.teFp8smImport with (s4 | s4) | ⟨⟩ <;>
            rcases h5 : env.teLayersImport with (s5 | s5) | ⟨⟩ <;>
              simp [check_transformer_engine, h1, h2, h3, h4, h5,
                te_recipe_subtest_res, te_recipe_subtest_msgs,
                te_fp8sm_subtest_res, te_fp8sm_subtest_msgs,
                te_layers_subtest_res, te_layers_subtest_msgs,
                te_forward_subtest_silent env ht hc, isForwardPassMsg]
  · rfl

/-- Claim C9 witness: on the concrete no-accelerator environment the
probe prints no forward-pass message and returns `true`. -/
theorem C9_witness :
    (check_transformer_engine envNoGpu).msgs.all
      (fun m => !isForwardPassMsg m) = true ∧
    (check_transformer_engine envNoGpu).res = .ok true :=
  C9_forward_pass_silent envNoGpu rfl rfl

/-- Claim C10: when `import modelopt` itself raises, the probe's result
is decided solely by the exception's type: `ImportError` yields
`false` ("not installed"), any other exception yields `true`
("installed but degraded"). -/
theorem C10_modelopt_exception_type (env : Env) (e : Exc)
    (h : env.modeloptImport = .error e) :
    (check_modelopt env).res = .ok (!e.isImportError) := by
  rcases e with s | s <;> simp [check_modelopt, h, Exc.isImportError]

/-- Claim C10 witness: an `ImportError` at the top-level import yields
`false`, a different exception yields `true`. -/
theorem C10_witness :
    (check_modelopt envModeloptMissing).res = .ok false ∧
    (check_modelopt envModeloptBroken).res = .ok true :=
  ⟨C10_modelopt_exception_type envModeloptMissing
      (.importError "No module named modelopt") rfl,
   C10_modelopt_exception_type envModeloptBroken
      (.otherError "CUDA driver mismatch") rfl⟩

end Validate
